import Mathlib

/-!
Shallow embedding of the connectivity dashboard pipeline (`src/app.py`).

The pandas DataFrame is modelled at two granularities:
* a column-level structure `DF` for the stages where column existence matters
  (`normalize_status_columns`, `compute_connectivity`, `load_master_df`);
* a row-level structure `FRow` for the filtering and aggregation stages that
  operate on the already-enriched table (`df_f`, KPIs, histograms, problem set).

Timestamp cells are modelled by their parse result: `none` stands for
NaT / an unparseable value, `some d` for the normalized date as a day number
(`pd.to_datetime(..., errors="coerce")` followed by `.dt.normalize()` never
observes more than the date, and every downstream use goes through
`.dt.days` of a date difference or through `isna`). Percentages are modelled
over `ℚ`, with `round(x, 2)` as integer rounding of `100 * x`.
-/

namespace Sotraser

/-- The four ordered freshness categories, `ORDER4` in `app.py`. -/
inductive Cat where
  | conectado
  | intermitente
  | limitado
  | desconectado
deriving DecidableEq, Repr

/-- Display label of each category, the exact strings of `ORDER4`. -/
def Cat.label : Cat → String
  | .conectado => "Conectado 0-2"
  | .intermitente => "Intermitente 3-14"
  | .limitado => "Limitado 15-30+"
  | .desconectado => "Desconectado 31+"

/-- `ORDER4`: the canonical category order (freshest to stalest). -/
def ORDER4 : List Cat := [.conectado, .intermitente, .limitado, .desconectado]

/-- `PROBLEM_LABELS`: the three non-freshest categories. -/
def PROBLEM_LABELS : List Cat := [.intermitente, .limitado, .desconectado]

/-- Python `str.strip()` on the character list: drop whitespace at both ends. -/
def stripChars (l : List Char) : List Char :=
  ((l.dropWhile Char.isWhitespace).reverse.dropWhile Char.isWhitespace).reverse

/-- Python `str.strip()`. -/
def pyStrip (s : String) : String := ⟨stripChars s.data⟩

/-- Python `str.upper()`: uppercase every character. -/
def pyUpper (s : String) : String := ⟨s.data.map Char.toUpper⟩

/-- pandas `.str.contains(q, regex=False)`: substring containment. -/
def containsSub (s q : String) : Bool := decide (q.data <:+: s.data)

/-- `norm_str_series`, per cell: `astype(str).str.strip()` (cells are already
strings in the model, so `astype(str)` is the identity). -/
def norm_str_cell (s : String) : String := pyStrip s

/-- `clasificar_4rangos`, per row.  The source assigns through disjoint masks:
`NaT` timestamps first, then `dias <= 2`, `dias.between(3, 14)`,
`dias.between(15, 30)`, `dias >= 31` on the non-NaT rows; a row covered by no
mask would keep the initial null.  For the integer ages the pipeline produces
the four masks partition, so the trailing `none` is unreachable there. -/
def clasificar_4rangos (ts : Option Int) (dias : Option Int) : Option Cat :=
  if ts.isNone then some .desconectado
  else
    match dias with
    | none => none
    | some d =>
      if d ≤ 2 then some .conectado
      else if 3 ≤ d ∧ d ≤ 14 then some .intermitente
      else if 15 ≤ d ∧ d ≤ 30 then some .limitado
      else if 31 ≤ d then some .desconectado
      else none

/-- Python `round(x, 2)`. -/
def round2 (x : ℚ) : ℚ := (round (x * 100) : ℤ) / 100

/-- `safe_pct`: `round(num / den * 100, 2)` when `den > 0`, else `0.0`. -/
def safe_pct (num den : ℚ) : ℚ :=
  if 0 < den then round2 (num / den * 100) else 0

/-- Column-level model of the status DataFrame.  An optional field is
`some column` exactly when the column is present in the frame; `nrows` is the
row count; `other` holds every remaining column, untouched by the pipeline. -/
structure DF where
  nrows : Nat
  imei : Option (List String) := none
  vin : Option (List String) := none
  patente : Option (List String) := none
  IMEI : Option (List String) := none
  VIN : Option (List String) := none
  license_plate : Option (List String) := none
  can_timestamp : Option (List (Option Int)) := none
  gps_timestamp : Option (List (Option Int)) := none
  last_update_utc : Option (List (Option Int)) := none
  days_can : Option (List (Option Int)) := none
  days_gps : Option (List (Option Int)) := none
  estado_telemetria : Option (List (Option Cat)) := none
  gps_status_any : Option (List (Option Cat)) := none
  other : List (String × List String) := []
deriving DecidableEq, Repr

/-- `normalize_status_columns`: rename `imei` to `IMEI`, `vin` to `VIN` and
`patente` to `license_plate`, each only when the source column is present and
the canonical name is not. -/
def normalize_status_columns (df : DF) : DF :=
  let df1 := if df.imei.isSome && df.IMEI.isNone
             then { df with IMEI := df.imei, imei := none } else df
  let df2 := if df1.vin.isSome && df1.VIN.isNone
             then { df1 with VIN := df1.vin, vin := none } else df1
  if df2.patente.isSome && df2.license_plate.isNone
  then { df2 with license_plate := df2.patente, patente := none } else df2

/-- `(today - col.dt.normalize()).dt.days`, elementwise; NaT gives NaN. -/
def mkDays (today : Int) (col : List (Option Int)) : List (Option Int) :=
  col.map (Option.map (fun t => today - t))

/-- `clasificar_4rangos` applied columnwise to aligned series. -/
def clasificarCol (ts dias : List (Option Int)) : List (Option Cat) :=
  List.zipWith clasificar_4rangos ts dias

/-- The diagnostic of the missing-IMEI `RuntimeError` in `compute_connectivity`. -/
def IMEI_ERROR : String := "El CSV no trae IMEI (ni imei)."

/-- `compute_connectivity`: normalize the identifier columns, fail when no
IMEI column exists, re-parse the timestamp columns (the parse result is the
model's cell value, so re-parsing is the identity), then derive the age and
category columns per channel; an absent source column is created as all-NaT
with all-NaN ages.  `st`-free core, so failure is the raised `RuntimeError`. -/
def compute_connectivity (today : Int) (df0 : DF) : Except String DF :=
  let df := normalize_status_columns df0
  if df.IMEI.isNone then .error IMEI_ERROR
  else
    let can := df.can_timestamp.getD (List.replicate df.nrows none)
    let dcan := mkDays today can
    let gps := df.gps_timestamp.getD (List.replicate df.nrows none)
    let dgps := mkDays today gps
    .ok { df with
      can_timestamp := some can
      days_can := some dcan
      estado_telemetria := some (clasificarCol can dcan)
      gps_timestamp := some gps
      days_gps := some dgps
      gps_status_any := some (clasificarCol gps dgps) }

/-- The IMEI column spellings accepted by `load_master_df`. -/
def MASTER_CANDIDATES : List String :=
  ["IMEI", "imei", "Imei", "IMEI_master", "imei_master", "IMEI_status", "imei_status"]

/-- The diagnostic shown by `load_master_df` when no candidate column exists. -/
def MASTER_ERROR : String := "El master debe tener columna IMEI."

/-- The structural part of `load_master_df`: strip the column names, then pick
the first IMEI-candidate spelling; `st.error` plus `st.stop` on failure is
modelled as `Except.error`. -/
def find_master_imei (cols : List String) : Except String String :=
  let cols := cols.map pyStrip
  match MASTER_CANDIDATES.find? (fun c => cols.contains c) with
  | some c => .ok c
  | none => .error MASTER_ERROR

/-- `load_master_df` then normalizes the roster IMEIs with `norm_str_series`;
the app takes `allowed = set(df_master["IMEI"])` of that column. -/
def master_allowed (masterIMEIs : List String) : List String :=
  masterIMEIs.map norm_str_cell

/-- Row-level view of the enriched table consumed by the filter and
aggregation stages (after `compute_connectivity` all these columns exist;
`VIN` / `license_plate` cells are `none` when the cell is NaN). -/
structure FRow where
  IMEI : String
  VIN : Option String := none
  license_plate : Option String := none
  can_timestamp : Option Int := none
  days_can : Option Int := none
  estado_telemetria : Option Cat := none
  gps_timestamp : Option Int := none
  days_gps : Option Int := none
  gps_status_any : Option Cat := none
deriving DecidableEq, Repr

/-- Per-row mirror of the derived fields of `compute_connectivity`. -/
def enrichRow (today : Int) (imei : String) (vin plate : Option String)
    (can gps : Option Int) : FRow :=
  { IMEI := imei, VIN := vin, license_plate := plate,
    can_timestamp := can,
    days_can := can.map (fun t => today - t),
    estado_telemetria := clasificar_4rangos can (can.map (fun t => today - t)),
    gps_timestamp := gps,
    days_gps := gps.map (fun t => today - t),
    gps_status_any := clasificar_4rangos gps (gps.map (fun t => today - t)) }

/-- A row whose derived fields are consistent with enrichment at date `today`:
exactly what `compute_connectivity` guarantees for every row of its output. -/
def Enriched (today : Int) (r : FRow) : Prop :=
  r.days_can = r.can_timestamp.map (fun t => today - t) ∧
  r.estado_telemetria = clasificar_4rangos r.can_timestamp r.days_can ∧
  r.days_gps = r.gps_timestamp.map (fun t => today - t) ∧
  r.gps_status_any = clasificar_4rangos r.gps_timestamp r.days_gps

instance (today : Int) (r : FRow) : Decidable (Enriched today r) := by
  unfold Enriched; infer_instance

/-- `df_status["IMEI"] = norm_str_series(df_status["IMEI"])`, per row. -/
def normRowIMEI (r : FRow) : FRow := { r with IMEI := norm_str_cell r.IMEI }

/-- `df_f = df_status[df_status["IMEI"].isin(allowed)]` after the column
normalization above. -/
def roster_filter (rows : List FRow) (allowed : List String) : List FRow :=
  (rows.map normRowIMEI).filter (fun r => allowed.contains r.IMEI)

/-- One identifier column's search contribution:
`fillna("").astype(str).str.upper().str.contains(q, regex=False)`. -/
def cellMatch (cell : Option String) (q : String) : Bool :=
  containsSub (pyUpper (cell.getD "")) q

/-- The search mask ORs the contributions of the identifier columns present in
the table (`IMEI` always exists after enrichment). -/
def search_mask (hasVIN hasPlate : Bool) (q : String) (r : FRow) : Bool :=
  cellMatch (some r.IMEI) q
  || (hasVIN && cellMatch r.VIN q)
  || (hasPlate && cellMatch r.license_plate q)

/-- The sidebar pipeline: roster filter first, then, when the normalized query
`text.strip().upper()` is nonempty, the search filter. -/
def apply_filters (rows : List FRow) (allowed : List String)
    (hasVIN hasPlate : Bool) (rawq : String) : List FRow :=
  let f := roster_filter rows allowed
  let q := pyUpper (pyStrip rawq)
  if q = "" then f else f.filter (search_mask hasVIN hasPlate q)

/-- `total = len(df_f)`. -/
def total (rows : List FRow) : Nat := rows.length

/-- `tele_ok = int(((notna can) & (days_can <= 30)).sum()) if total else 0`;
an NA age contributes `False` to the conjunction. -/
def tele_ok (rows : List FRow) : Nat :=
  if rows.length ≠ 0 then
    rows.countP (fun r => r.can_timestamp.isSome &&
      (match r.days_can with | some d => decide (d ≤ 30) | none => false))
  else 0

/-- `gps_ok`, threshold 15 on `days_gps`. -/
def gps_ok (rows : List FRow) : Nat :=
  if rows.length ≠ 0 then
    rows.countP (fun r => r.gps_timestamp.isSome &&
      (match r.days_gps with | some d => decide (d ≤ 15) | none => false))
  else 0

/-- `tele_pct = safe_pct(tele_ok, total)`. -/
def tele_pct (rows : List FRow) : ℚ := safe_pct (tele_ok rows) (total rows)

/-- `gps_pct = safe_pct(gps_ok, total)`. -/
def gps_pct (rows : List FRow) : ℚ := safe_pct (gps_ok rows) (total rows)

/-- `value_counts().reindex(ORDER4).fillna(0)`: one count per category, in
canonical order, zero-count categories included (null cells are not counted). -/
def counts4 (col : List (Option Cat)) : List (Cat × Nat) :=
  ORDER4.map (fun c => (c, col.countP (fun x => x == some c)))

/-- `tele_counts`, the telemetry histogram. -/
def tele_counts (rows : List FRow) : List (Cat × Nat) :=
  counts4 (rows.map (·.estado_telemetria))

/-- `gps_counts`, the GPS histogram. -/
def gps_counts (rows : List FRow) : List (Cat × Nat) :=
  counts4 (rows.map (·.gps_status_any))

/-- `problem_mask`: either channel's category is in `PROBLEM_LABELS`
(`isin` is `False` on a null cell). -/
def problem_mask (r : FRow) : Bool :=
  (match r.estado_telemetria with
   | some c => PROBLEM_LABELS.contains c
   | none => false)
  || (match r.gps_status_any with
      | some c => PROBLEM_LABELS.contains c
      | none => false)

/-- Strict order of one sort key of
`sort_values(..., ascending=False, na_position="last")`: a value comes
strictly before another when both are present and it is larger, or when it is
present and the other is NaN. -/
def daysLT (a b : Option Int) : Bool :=
  match a, b with
  | some x, some y => decide (y < x)
  | some _, none => true
  | none, _ => false

/-- The lexicographic at-most-as-late order on the key pair
`(days_can, days_gps)` used by the problem-table sort. -/
def probLE (r s : FRow) : Bool :=
  daysLT r.days_can s.days_can
  || (r.days_can == s.days_can &&
      (daysLT r.days_gps s.days_gps || r.days_gps == s.days_gps))

/-- `df_probs`: filter by `problem_mask`, then
`sort_values(["days_can", "days_gps"], ascending=False, na_position="last")`. -/
def df_probs (rows : List FRow) : List FRow :=
  (rows.filter problem_mask).mergeSort probLE

/-- Well-formedness of the column model: every present column has exactly
`nrows` cells. -/
def DF.WF (df : DF) : Prop :=
  (∀ l, df.imei = some l → l.length = df.nrows) ∧
  (∀ l, df.vin = some l → l.length = df.nrows) ∧
  (∀ l, df.patente = some l → l.length = df.nrows) ∧
  (∀ l, df.IMEI = some l → l.length = df.nrows) ∧
  (∀ l, df.VIN = some l → l.length = df.nrows) ∧
  (∀ l, df.license_plate = some l → l.length = df.nrows) ∧
  (∀ l, df.can_timestamp = some l → l.length = df.nrows) ∧
  (∀ l, df.gps_timestamp = some l → l.length = df.nrows) ∧
  (∀ l, df.last_update_utc = some l → l.length = df.nrows) ∧
  (∀ l, df.days_can = some l → l.length = df.nrows) ∧
  (∀ l, df.days_gps = some l → l.length = df.nrows) ∧
  (∀ l, df.estado_telemetria = some l → l.length = df.nrows) ∧
  (∀ l, df.gps_status_any = some l → l.length = df.nrows) ∧
  (∀ p ∈ df.other, p.2.length = df.nrows)

/-! ## Helper lemmas -/

/-- On a present timestamp and a present age the classifier follows the
two-sided boundary table, with the final range absorbing every age above 30. -/
theorem clasificar_some_some (t a : Int) :
    clasificar_4rangos (some t) (some a) =
      some (if a ≤ 2 then Cat.conectado
            else if 3 ≤ a ∧ a ≤ 14 then Cat.intermitente
            else if 15 ≤ a ∧ a ≤ 30 then Cat.limitado
            else Cat.desconectado) := by
  simp only [clasificar_4rangos, Option.isNone_some, Bool.false_eq_true, if_false]
  split_ifs <;> first | rfl | omega

/-- On the coupled inputs the pipeline produces (age derived from the same
timestamp), the classifier never returns a null. -/
theorem clasificar_coupled_isSome (today : Int) (ts : Option Int) :
    (clasificar_4rangos ts (ts.map fun t => today - t)).isSome = true := by
  cases ts with
  | none => rfl
  | some t =>
    rw [Option.map_some', clasificar_some_some]
    rfl

/-- `round2` does not go below 0 on a nonnegative input. -/
theorem round2_nonneg {x : ℚ} (h : 0 ≤ x) : 0 ≤ round2 x := by
  unfold round2
  have h1 : (0 : ℤ) ≤ round (x * 100) := by
    rw [round_eq]
    rw [Int.le_floor]
    push_cast
    linarith
  have h2 : (0 : ℚ) ≤ ((round (x * 100) : ℤ) : ℚ) := by exact_mod_cast h1
  positivity

/-- `round2` does not exceed 100 on an input at most 100. -/
theorem round2_le_100 {x : ℚ} (h : x ≤ 100) : round2 x ≤ 100 := by
  unfold round2
  have h1 : round (x * 100) ≤ 10000 := by
    rw [round_eq]
    have hx : x * 100 + 1 / 2 ≤ (10000 : ℚ) + 1 / 2 := by linarith
    calc ⌊x * 100 + 1 / 2⌋ ≤ ⌊(10000 : ℚ) + 1 / 2⌋ := Int.floor_le_floor hx
      _ = 10000 := by norm_num [Int.floor_eq_iff]
  have h2 : ((round (x * 100) : ℤ) : ℚ) ≤ 10000 := by exact_mod_cast h1
  linarith

/-- `safe_pct` is nonnegative whenever the numerator is. -/
theorem safe_pct_nonneg {num den : ℚ} (h0 : 0 ≤ num) : 0 ≤ safe_pct num den := by
  unfold safe_pct
  split_ifs with h
  · exact round2_nonneg (by positivity)
  · exact le_refl 0

/-- `safe_pct` is at most 100 whenever `num ≤ den`. -/
theorem safe_pct_le_100 {num den : ℚ} (h1 : num ≤ den) :
    safe_pct num den ≤ 100 := by
  unfold safe_pct
  split_ifs with h
  · apply round2_le_100
    have hd : num / den ≤ 1 := (div_le_one h).mpr h1
    nlinarith
  · norm_num

/-! ## Claims -/

/-- C1: the staleness classifier assigns exactly one category per the boundary
table: a missing timestamp always gives "Desconectado 31+"; on a present
timestamp, age ≤ 2 (negative ages included) gives "Conectado 0-2",
3 ≤ age ≤ 14 "Intermitente 3-14", 15 ≤ age ≤ 30 "Limitado 15-30+", and
everything else (age ≥ 31) "Desconectado 31+"; the cases partition all integer
ages plus the missing case, each boundary value landing on the documented
side, and on the coupled inputs the pipeline produces the result is never
null. -/
theorem C1_clasificar_partition :
    (∀ d : Option Int, clasificar_4rangos none d = some Cat.desconectado) ∧
    (∀ t a : Int, clasificar_4rangos (some t) (some a) =
      some (if a ≤ 2 then Cat.conectado
            else if 3 ≤ a ∧ a ≤ 14 then Cat.intermitente
            else if 15 ≤ a ∧ a ≤ 30 then Cat.limitado
            else Cat.desconectado)) ∧
    (∀ (today : Int) (ts : Option Int),
      (clasificar_4rangos ts (ts.map fun t => today - t)).isSome = true) ∧
    clasificar_4rangos (some 0) (some (-5)) = some Cat.conectado ∧
    clasificar_4rangos (some 0) (some 2) = some Cat.conectado ∧
    clasificar_4rangos (some 0) (some 3) = some Cat.intermitente ∧
    clasificar_4rangos (some 0) (some 14) = some Cat.intermitente ∧
    clasificar_4rangos (some 0) (some 15) = some Cat.limitado ∧
    clasificar_4rangos (some 0) (some 30) = some Cat.limitado ∧
    clasificar_4rangos (some 0) (some 31) = some Cat.desconectado := by
  refine ⟨fun d => rfl, clasificar_some_some, clasificar_coupled_isSome, ?_⟩
  repeat' constructor

/-- C2: `ok_count` counts exactly the rows with a present channel timestamp
and age at most the channel threshold (30 telemetry, 15 GPS); `ok_pct` is
`ok_count / total * 100` rounded to 2 decimals when the total is positive and
exactly 0 on an empty table (no division error), and both percentages always
lie in [0, 100]. -/
theorem C2_ok_pct_bounds :
    (∀ rows : List FRow,
      tele_ok rows = rows.countP (fun r => r.can_timestamp.isSome &&
        (match r.days_can with | some d => decide (d ≤ 30) | none => false)) ∧
      gps_ok rows = rows.countP (fun r => r.gps_timestamp.isSome &&
        (match r.days_gps with | some d => decide (d ≤ 15) | none => false)) ∧
      (0 < total rows →
        tele_pct rows = round2 ((tele_ok rows : ℚ) / (total rows : ℚ) * 100) ∧
        gps_pct rows = round2 ((gps_ok rows : ℚ) / (total rows : ℚ) * 100)) ∧
      0 ≤ tele_pct rows ∧ tele_pct rows ≤ 100 ∧
      0 ≤ gps_pct rows ∧ gps_pct rows ≤ 100) ∧
    (∀ num : ℚ, safe_pct num 0 = 0) ∧
    tele_pct [] = 0 ∧ gps_pct [] = 0 := by
  have hok : ∀ rows : List FRow,
      tele_ok rows = rows.countP (fun r => r.can_timestamp.isSome &&
        (match r.days_can with | some d => decide (d ≤ 30) | none => false)) := by
    intro rows
    unfold tele_ok
    split_ifs with h
    · rfl
    · have hnil : rows = [] := List.length_eq_zero.mp (by omega)
      subst hnil
      rfl
  have hokg : ∀ rows : List FRow,
      gps_ok rows = rows.countP (fun r => r.gps_timestamp.isSome &&
        (match r.days_gps with | some d => decide (d ≤ 15) | none => false)) := by
    intro rows
    unfold gps_ok
    split_ifs with h
    · rfl
    · have hnil : rows = [] := List.length_eq_zero.mp (by omega)
      subst hnil
      rfl
  have hto : ∀ rows : List FRow, tele_ok rows ≤ total rows := by
    intro rows
    rw [hok rows]
    exact List.countP_le_length _
  have hgo : ∀ rows : List FRow, gps_ok rows ≤ total rows := by
    intro rows
    rw [hokg rows]
    exact List.countP_le_length _
  refine ⟨fun rows => ⟨hok rows, hokg rows, ?_, ?_, ?_, ?_, ?_⟩, fun num => ?_, rfl, rfl⟩
  · intro ht
    have h : (0 : ℚ) < (total rows : ℚ) := by exact_mod_cast ht
    constructor
    · unfold tele_pct safe_pct
      rw [if_pos h]
    · unfold gps_pct safe_pct
      rw [if_pos h]
  · exact safe_pct_nonneg (by positivity)
  · exact safe_pct_le_100 (by exact_mod_cast hto rows)
  · exact safe_pct_nonneg (by positivity)
  · exact safe_pct_le_100 (by exact_mod_cast hgo rows)
  · unfold safe_pct
    norm_num

/-- `dropWhile` leaves a list whose head fails the predicate unchanged. -/
theorem dropWhile_head_false {α : Type} {p : α → Bool} {l : List α}
    (h : ∀ a, l.head? = some a → p a = false) : l.dropWhile p = l := by
  cases l with
  | nil => rfl
  | cons a t =>
    have ha := h a rfl
    simp [List.dropWhile_cons, ha]

/-- `dropWhile` is idempotent. -/
theorem dropWhile_dropWhile {α : Type} (p : α → Bool) (l : List α) :
    (l.dropWhile p).dropWhile p = l.dropWhile p := by
  apply dropWhile_head_false
  intro a ha
  have h2 := List.head?_dropWhile_not p l
  rw [ha] at h2
  exact h2

/-- Two-sided whitespace stripping is idempotent. -/
theorem stripChars_idem (l : List Char) : stripChars (stripChars l) = stripChars l := by
  unfold stripChars
  set p := Char.isWhitespace with hp
  set A := l.dropWhile p with hA
  set B := A.reverse.dropWhile p with hB
  have hBrev : B.reverse <+: A := by
    have hsuf : B <:+ A.reverse := hB ▸ List.dropWhile_suffix p
    exact List.reverse_suffix.mp (by rwa [List.reverse_reverse])
  have hstep1 : B.reverse.dropWhile p = B.reverse := by
    apply dropWhile_head_false
    intro a ha
    obtain ⟨t, ht⟩ := hBrev
    cases hbr : B.reverse with
    | nil => rw [hbr] at ha; cases ha
    | cons b bt =>
      rw [hbr] at ha ht
      have hba : b = a := by
        have : some b = some a := ha
        exact Option.some.inj this
      subst hba
      have h2 := List.head?_dropWhile_not p l
      rw [← hA, ← ht] at h2
      simpa using h2
  have hstep2 : B.dropWhile p = B := by
    apply dropWhile_head_false
    intro a ha
    have h2 := List.head?_dropWhile_not p A.reverse
    rw [← hB, ha] at h2
    exact h2
  rw [hstep1, List.reverse_reverse, hstep2]

/-- `str.strip()` is idempotent. -/
theorem pyStrip_idem (s : String) : pyStrip (pyStrip s) = pyStrip s :=
  congrArg String.mk (stripChars_idem s.data)

/-- Normalizing the IMEI of a row twice equals normalizing it once. -/
theorem normRowIMEI_idem (r : FRow) : normRowIMEI (normRowIMEI r) = normRowIMEI r := by
  cases r
  simp [normRowIMEI, norm_str_cell, pyStrip_idem]

/-- Concrete run of C2 on a one-row table with a positive total. -/
theorem C2_ok_pct_bounds_witness :
    tele_pct [enrichRow 100 "A" none none (some 98) none] =
      round2 ((tele_ok [enrichRow 100 "A" none none (some 98) none] : ℚ) /
        (total [enrichRow 100 "A" none none (some 98) none] : ℚ) * 100) ∧
    gps_pct [enrichRow 100 "A" none none (some 98) none] =
      round2 ((gps_ok [enrichRow 100 "A" none none (some 98) none] : ℚ) /
        (total [enrichRow 100 "A" none none (some 98) none] : ℚ) * 100) :=
  (C2_ok_pct_bounds.1 [enrichRow 100 "A" none none (some 98) none]).2.2.1 (by decide)

/-- The histogram labels are exactly `ORDER4`, in order. -/
theorem counts4_fst (col : List (Option Cat)) :
    (counts4 col).map Prod.fst = ORDER4 := rfl

/-- When no cell is null, the four histogram counts sum to the column length. -/
theorem counts4_sum (col : List (Option Cat)) (h : ∀ x ∈ col, x.isSome = true) :
    ((counts4 col).map Prod.snd).sum = col.length := by
  induction col with
  | nil => rfl
  | cons x t ih =>
    have hx := h x (List.mem_cons_self x t)
    have ht : ∀ y ∈ t, y.isSome = true := fun y hy => h y (List.mem_cons_of_mem x hy)
    obtain ⟨c0, rfl⟩ := Option.isSome_iff_exists.mp hx
    have ihh := ih ht
    simp only [counts4, ORDER4, List.map_cons, List.map_nil, List.sum_cons, List.sum_nil,
      List.countP_cons, List.length_cons] at ihh ⊢
    cases c0 <;> simp_all <;> omega

/-- An enriched row's telemetry category is never null. -/
theorem Enriched.estado_isSome {today : Int} {r : FRow} (h : Enriched today r) :
    r.estado_telemetria.isSome = true := by
  obtain ⟨h1, h2, _, _⟩ := h
  rw [h2, h1]
  exact clasificar_coupled_isSome today r.can_timestamp

/-- An enriched row's GPS category is never null. -/
theorem Enriched.gps_isSome {today : Int} {r : FRow} (h : Enriched today r) :
    r.gps_status_any.isSome = true := by
  obtain ⟨_, _, h3, h4⟩ := h
  rw [h4, h3]
  exact clasificar_coupled_isSome today r.gps_timestamp

/-- C3: each per-channel histogram lists all four categories in canonical
order (zero counts never omitted), and the four counts sum to the filtered
table's row count. -/
theorem C3_histogram (today : Int) (rows : List FRow)
    (h : ∀ r ∈ rows, Enriched today r) :
    (tele_counts rows).map Prod.fst = ORDER4 ∧
    (gps_counts rows).map Prod.fst = ORDER4 ∧
    ((tele_counts rows).map Prod.snd).sum = total rows ∧
    ((gps_counts rows).map Prod.snd).sum = total rows := by
  refine ⟨counts4_fst _, counts4_fst _, ?_, ?_⟩
  · have hs := counts4_sum (rows.map (·.estado_telemetria))
      (fun x hx => by
        obtain ⟨r, hr, rfl⟩ := List.mem_map.mp hx
        exact (h r hr).estado_isSome)
    rw [tele_counts, hs, List.length_map]
    rfl
  · have hs := counts4_sum (rows.map (·.gps_status_any))
      (fun x hx => by
        obtain ⟨r, hr, rfl⟩ := List.mem_map.mp hx
        exact (h r hr).gps_isSome)
    rw [gps_counts, hs, List.length_map]
    rfl

/-- C5: the roster filter keeps exactly the rows whose IMEI, stringified and
trimmed, belongs to the normalized roster IMEI set (the kept row carrying the
normalized IMEI); every surviving row's IMEI is a normalized roster IMEI, so a
row whose IMEI is absent from the roster is excluded; and the scenario of a
roster IMEI "123 " with trailing space joining a report IMEI "123" succeeds. -/
theorem C5_roster_membership (rows : List FRow) (master : List String) (r : FRow) :
    (r ∈ roster_filter rows (master_allowed master) ↔
      ∃ r0 ∈ rows, r = normRowIMEI r0 ∧
        norm_str_cell r0.IMEI ∈ master.map norm_str_cell) ∧
    (∀ s ∈ roster_filter rows (master_allowed master),
        s.IMEI ∈ master.map norm_str_cell) ∧
    ({ IMEI := "123" } : FRow) ∈
      roster_filter [{ IMEI := "123" }] (master_allowed ["123 "]) := by
  have hmemchar : ∀ s : FRow, s ∈ roster_filter rows (master_allowed master) ↔
      ∃ r0 ∈ rows, s = normRowIMEI r0 ∧
        norm_str_cell r0.IMEI ∈ master.map norm_str_cell := by
    intro s
    constructor
    · intro hs
      obtain ⟨hmem, hp⟩ := List.mem_filter.mp hs
      obtain ⟨r0, hr0, rfl⟩ := List.mem_map.mp hmem
      refine ⟨r0, hr0, rfl, ?_⟩
      have h2 : (normRowIMEI r0).IMEI ∈ master_allowed master := List.elem_iff.mp hp
      simpa [master_allowed, normRowIMEI] using h2
    · rintro ⟨r0, hr0, rfl, hmem⟩
      refine List.mem_filter.mpr ⟨List.mem_map.mpr ⟨r0, hr0, rfl⟩, ?_⟩
      exact List.elem_iff.mpr (by simpa [master_allowed, normRowIMEI] using hmem)
  refine ⟨hmemchar r, ?_, by decide⟩
  intro s hs
  obtain ⟨r0, _, rfl, hmem⟩ := (hmemchar s).mp hs
  simpa [normRowIMEI] using hmem

/-- Concrete run of C5 on a two-row report and a one-entry roster. -/
theorem C5_roster_membership_witness :
    (({ IMEI := "123" } : FRow) ∈
        roster_filter [({ IMEI := " 123" } : FRow), { IMEI := "999" }]
          (master_allowed ["123 "]) ↔
      ∃ r0 ∈ [({ IMEI := " 123" } : FRow), { IMEI := "999" }],
        ({ IMEI := "123" } : FRow) = normRowIMEI r0 ∧
          norm_str_cell r0.IMEI ∈ ["123 "].map norm_str_cell) ∧
    (∀ s ∈ roster_filter [({ IMEI := " 123" } : FRow), { IMEI := "999" }]
        (master_allowed ["123 "]),
        s.IMEI ∈ ["123 "].map norm_str_cell) ∧
    ({ IMEI := "123" } : FRow) ∈
      roster_filter [{ IMEI := "123" }] (master_allowed ["123 "]) :=
  C5_roster_membership [({ IMEI := " 123" } : FRow), { IMEI := "999" }] ["123 "]
    { IMEI := "123" }

/-- C6: the optional search is applied after the roster filter and only
restricts it: the combined output is a subset of the roster-filtered rows, and
for a nonempty normalized query it keeps exactly the roster-filtered rows
where some available identifier column contains the query (both sides
uppercased, so the match is case-insensitive). -/
theorem C6_search_refines (rows : List FRow) (master : List String)
    (hasVIN hasPlate : Bool) (rawq : String) :
    (apply_filters rows (master_allowed master) hasVIN hasPlate rawq ⊆
      roster_filter rows (master_allowed master)) ∧
    (pyUpper (pyStrip rawq) ≠ "" →
      ∀ r, r ∈ apply_filters rows (master_allowed master) hasVIN hasPlate rawq ↔
        r ∈ roster_filter rows (master_allowed master) ∧
          search_mask hasVIN hasPlate (pyUpper (pyStrip rawq)) r = true) := by
  have hdef : apply_filters rows (master_allowed master) hasVIN hasPlate rawq =
      (if pyUpper (pyStrip rawq) = "" then roster_filter rows (master_allowed master)
       else (roster_filter rows (master_allowed master)).filter
              (search_mask hasVIN hasPlate (pyUpper (pyStrip rawq)))) := rfl
  constructor
  · rw [hdef]
    split_ifs
    · exact fun a ha => ha
    · exact List.filter_subset' _
  · intro hne r
    rw [hdef, if_neg hne]
    exact List.mem_filter

/-- Concrete run of C6: query " c1 " matches the report IMEI "ABC123"
case-insensitively after roster filtering. -/
theorem C6_search_refines_witness :
    ({ IMEI := "ABC123" } : FRow) ∈
      apply_filters [({ IMEI := "ABC123" } : FRow)] (master_allowed ["ABC123"])
        true true " c1 " ↔
    ({ IMEI := "ABC123" } : FRow) ∈
      roster_filter [({ IMEI := "ABC123" } : FRow)] (master_allowed ["ABC123"]) ∧
      search_mask true true (pyUpper (pyStrip " c1 ")) { IMEI := "ABC123" } = true :=
  (C6_search_refines [({ IMEI := "ABC123" } : FRow)] ["ABC123"] true true " c1 ").2
    (by decide) { IMEI := "ABC123" }

/-- C7: the roster filter is idempotent — filtering an already-filtered table
by the same roster set returns the same rows. -/
theorem C7_roster_filter_idempotent (rows : List FRow) (allowed : List String) :
    roster_filter (roster_filter rows allowed) allowed = roster_filter rows allowed := by
  unfold roster_filter
  have h1 : ((rows.map normRowIMEI).filter
        (fun r => allowed.contains r.IMEI)).map normRowIMEI =
      (rows.map normRowIMEI).filter (fun r => allowed.contains r.IMEI) := by
    have hfix : ∀ x ∈ (rows.map normRowIMEI).filter (fun r => allowed.contains r.IMEI),
        normRowIMEI x = id x := by
      intro x hx
      have hx2 := (List.mem_filter.mp hx).1
      obtain ⟨r0, _, rfl⟩ := List.mem_map.mp hx2
      exact normRowIMEI_idem r0
    rw [List.map_congr_left hfix, List.map_id]
  rw [h1, List.filter_filter]
  simp

/-- Closed form of `normalize_status_columns`: each canonical identifier
column receives the lowercase column exactly when the canonical one is absent,
and the lowercase column is consumed in that case. -/
theorem normalize_proj (df : DF) :
    normalize_status_columns df =
      { df with
        IMEI := if df.IMEI.isNone then df.imei else df.IMEI,
        imei := if df.IMEI.isNone then none else df.imei,
        VIN := if df.VIN.isNone then df.vin else df.VIN,
        vin := if df.VIN.isNone then none else df.vin,
        license_plate := if df.license_plate.isNone then df.patente
                         else df.license_plate,
        patente := if df.license_plate.isNone then none else df.patente } := by
  obtain ⟨nr, imei, vin, pat, IM, VI, lic, can, gps, lu, dc, dg, et, ga, oth⟩ := df
  rcases imei with _ | li <;> rcases IM with _ | lI <;>
    rcases vin with _ | lv <;> rcases VI with _ | lV <;>
    rcases pat with _ | lp <;> rcases lic with _ | lL <;> rfl

/-- The problem-table sort order is total. -/
theorem probLE_total (r s : FRow) : (probLE r s || probLE s r) = true := by
  obtain ⟨_, _, _, _, dca, _, _, dga, _⟩ := r
  obtain ⟨_, _, _, _, dcb, _, _, dgb, _⟩ := s
  simp only [probLE]
  rcases dca with _ | xa <;> rcases dcb with _ | xb <;>
    rcases dga with _ | ya <;> rcases dgb with _ | yb <;>
    simp [daysLT] <;> omega

/-- The problem-table sort order is transitive. -/
theorem probLE_trans (a b c : FRow) (h1 : probLE a b = true) (h2 : probLE b c = true) :
    probLE a c = true := by
  obtain ⟨_, _, _, _, dca, _, _, dga, _⟩ := a
  obtain ⟨_, _, _, _, dcb, _, _, dgb, _⟩ := b
  obtain ⟨_, _, _, _, dcc, _, _, dgc, _⟩ := c
  simp only [probLE] at h1 h2 ⊢
  rcases dca with _ | xa <;> rcases dcb with _ | xb <;> rcases dcc with _ | xc <;>
    rcases dga with _ | ya <;> rcases dgb with _ | yb <;> rcases dgc with _ | yc <;>
    simp_all [daysLT] <;> omega

/-- C9: the problem set holds exactly the filtered rows where either channel's
category is one of the three non-freshest ones, as a permutation of that
filter (so with its exact multiset of rows), sorted so that consecutive rows
are ordered by descending `days_can` with ties broken by descending
`days_gps`; in each key a present value precedes a null (nulls last) and a
larger age precedes a smaller one (descending staleness). -/
theorem C9_problem_set (rows : List FRow) :
    (df_probs rows).Perm (rows.filter problem_mask) ∧
    (∀ r, r ∈ df_probs rows ↔ r ∈ rows ∧ problem_mask r = true) ∧
    List.Pairwise (fun a b => probLE a b = true) (df_probs rows) ∧
    (∀ r : FRow, problem_mask r = true ↔
      ((∃ c, r.estado_telemetria = some c ∧ c ∈ PROBLEM_LABELS) ∨
       (∃ c, r.gps_status_any = some c ∧ c ∈ PROBLEM_LABELS))) ∧
    (∀ a b : Option Int, daysLT a b = true ↔
      ((∃ x, a = some x ∧ b = none) ∨ (∃ x y, a = some x ∧ b = some y ∧ y < x))) := by
  refine ⟨List.mergeSort_perm _ _, ?_, ?_, ?_, ?_⟩
  · intro r
    simp [df_probs, List.mem_mergeSort, List.mem_filter]
  · exact List.sorted_mergeSort probLE_trans probLE_total _
  · intro r
    obtain ⟨_, _, _, _, _, est, _, _, gst⟩ := r
    rcases est with _ | c1 <;> rcases gst with _ | c2 <;>
      simp [problem_mask, List.elem_iff]
  · intro a b
    cases a <;> cases b <;> simp [daysLT]

/-- Concrete run of C9 on a two-row table. -/
theorem C9_problem_set_witness :
    (df_probs [enrichRow 100 "A" none none (some 80) none,
               enrichRow 100 "B" none none (some 99) (some 99)]).Perm
      ([enrichRow 100 "A" none none (some 80) none,
        enrichRow 100 "B" none none (some 99) (some 99)].filter problem_mask) :=
  (C9_problem_set [enrichRow 100 "A" none none (some 80) none,
                   enrichRow 100 "B" none none (some 99) (some 99)]).1

/-- C4: the enricher treats an entirely absent source timestamp column exactly
like a column fully populated with missing markers — the two runs return the
same result (so the same derived columns) — and it does not fail on absent
columns: whenever an IMEI-equivalent column exists, the run with both source
columns absent succeeds, derives an all-null age column and an all-
"Desconectado 31+" category column per channel, and materializes both source
columns, so no later stage needs to branch on column existence. -/
theorem C4_absent_source_column (today : Int) (df : DF) :
    compute_connectivity today { df with can_timestamp := none } =
      compute_connectivity today
        { df with can_timestamp := some (List.replicate df.nrows none) } ∧
    compute_connectivity today { df with gps_timestamp := none } =
      compute_connectivity today
        { df with gps_timestamp := some (List.replicate df.nrows none) } ∧
    ((df.IMEI.isSome = true ∨ df.imei.isSome = true) →
      ∃ out, compute_connectivity today
          { df with can_timestamp := none, gps_timestamp := none } = .ok out ∧
        out.days_can = some (List.replicate df.nrows none) ∧
        out.estado_telemetria = some (List.replicate df.nrows (some Cat.desconectado)) ∧
        out.days_gps = some (List.replicate df.nrows none) ∧
        out.gps_status_any = some (List.replicate df.nrows (some Cat.desconectado)) ∧
        out.can_timestamp = some (List.replicate df.nrows none) ∧
        out.gps_timestamp = some (List.replicate df.nrows none)) := by
  refine ⟨?_, ?_, ?_⟩
  · simp only [compute_connectivity, normalize_proj]
    split_ifs <;> rfl
  · simp only [compute_connectivity, normalize_proj]
    split_ifs <;> rfl
  · intro h
    have hcase : ¬ (if df.IMEI = none then df.imei else df.IMEI) = none := by
      rcases hI : df.IMEI with _ | l
      · rcases h with h | h
        · rw [hI] at h
          cases h
        · obtain ⟨l2, hl2⟩ := Option.isSome_iff_exists.mp h
          simp [hl2]
      · simp [hI]
    have hcan : mkDays today (List.replicate df.nrows (none : Option Int)) =
        List.replicate df.nrows none := by
      simp [mkDays, List.map_replicate]
    have hcls : clasificarCol (List.replicate df.nrows none)
          (List.replicate df.nrows none) =
        List.replicate df.nrows (some Cat.desconectado) := by
      simp [clasificarCol, List.zipWith_replicate, clasificar_4rangos]
    refine ⟨{ df with
        IMEI := if df.IMEI.isNone then df.imei else df.IMEI,
        imei := if df.IMEI.isNone then none else df.imei,
        VIN := if df.VIN.isNone then df.vin else df.VIN,
        vin := if df.VIN.isNone then none else df.vin,
        license_plate := if df.license_plate.isNone then df.patente
                         else df.license_plate,
        patente := if df.license_plate.isNone then none else df.patente,
        can_timestamp := some (List.replicate df.nrows none),
        days_can := some (List.replicate df.nrows none),
        estado_telemetria := some (List.replicate df.nrows (some Cat.desconectado)),
        gps_timestamp := some (List.replicate df.nrows none),
        days_gps := some (List.replicate df.nrows none),
        gps_status_any := some (List.replicate df.nrows (some Cat.desconectado)) },
      ?_, rfl, rfl, rfl, rfl, rfl, rfl⟩
    simp only [compute_connectivity, normalize_proj]
    rw [if_neg (by simpa using hcase)]
    simp [hcan, hcls]

/-- Concrete run of C4 on a one-row frame carrying only an IMEI column. -/
theorem C4_absent_source_column_witness :
    ∃ out, compute_connectivity 0
        { nrows := 1, IMEI := some ["1"], can_timestamp := none,
          gps_timestamp := none } = .ok out ∧
      out.days_can = some (List.replicate 1 none) ∧
      out.estado_telemetria = some (List.replicate 1 (some Cat.desconectado)) ∧
      out.days_gps = some (List.replicate 1 none) ∧
      out.gps_status_any = some (List.replicate 1 (some Cat.desconectado)) ∧
      out.can_timestamp = some (List.replicate 1 none) ∧
      out.gps_timestamp = some (List.replicate 1 none) :=
  (C4_absent_source_column 0 { nrows := 1, IMEI := some ["1"] }).2.2
    (Or.inl (by decide))

/-- C8: the pipeline halts with a configuration diagnostic exactly when no
IMEI-equivalent column exists — in the status table (neither `IMEI` nor
`imei`, the raised `RuntimeError`) or in the roster after column-name
normalization (none of the accepted spellings, the `st.error` diagnostic) —
while for any per-row data (unparseable timestamps, absent optional columns)
the core never raises: with an IMEI-equivalent column present it always
returns a result. -/
theorem C8_structural_error_handling (today : Int) (df : DF) (cols : List String) :
    (df.IMEI = none → df.imei = none →
      compute_connectivity today df = .error IMEI_ERROR) ∧
    ((df.IMEI.isSome = true ∨ df.imei.isSome = true) →
      ∃ out, compute_connectivity today df = .ok out) ∧
    ((∀ c ∈ MASTER_CANDIDATES, c ∉ cols.map pyStrip) →
      find_master_imei cols = .error MASTER_ERROR) ∧
    ((∃ c ∈ MASTER_CANDIDATES, c ∈ cols.map pyStrip) →
      ∃ c, find_master_imei cols = .ok c) := by
  refine ⟨?_, ?_, ?_, ?_⟩
  · intro h1 h2
    simp [compute_connectivity, normalize_proj, h1, h2]
  · intro h
    have hcase : ¬ (if df.IMEI = none then df.imei else df.IMEI) = none := by
      rcases hI : df.IMEI with _ | l
      · rcases h with h | h
        · rw [hI] at h
          cases h
        · obtain ⟨l2, hl2⟩ := Option.isSome_iff_exists.mp h
          simp [hl2]
      · simp [hI]
    refine ⟨{ df with
        IMEI := if df.IMEI.isNone then df.imei else df.IMEI,
        imei := if df.IMEI.isNone then none else df.imei,
        VIN := if df.VIN.isNone then df.vin else df.VIN,
        vin := if df.VIN.isNone then none else df.vin,
        license_plate := if df.license_plate.isNone then df.patente
                         else df.license_plate,
        patente := if df.license_plate.isNone then none else df.patente,
        can_timestamp := some (df.can_timestamp.getD (List.replicate df.nrows none)),
        days_can := some (mkDays today
          (df.can_timestamp.getD (List.replicate df.nrows none))),
        estado_telemetria := some (clasificarCol
          (df.can_timestamp.getD (List.replicate df.nrows none))
          (mkDays today (df.can_timestamp.getD (List.replicate df.nrows none)))),
        gps_timestamp := some (df.gps_timestamp.getD (List.replicate df.nrows none)),
        days_gps := some (mkDays today
          (df.gps_timestamp.getD (List.replicate df.nrows none))),
        gps_status_any := some (clasificarCol
          (df.gps_timestamp.getD (List.replicate df.nrows none))
          (mkDays today (df.gps_timestamp.getD (List.replicate df.nrows none)))) }, ?_⟩
    simp only [compute_connectivity, normalize_proj]
    rw [if_neg (by simpa using hcase)]
  · intro h
    simp only [find_master_imei]
    have hnone : MASTER_CANDIDATES.find? (fun c => (cols.map pyStrip).contains c) = none := by
      rw [List.find?_eq_none]
      intro c hc
      simp only [Bool.not_eq_true]
      rcases hcon : (cols.map pyStrip).contains c with _ | _
      · rfl
      · exact absurd (List.elem_iff.mp hcon) (h c hc)
    rw [hnone]
  · intro h
    simp only [find_master_imei]
    obtain ⟨c, hc, hmem⟩ := h
    have hsome : (MASTER_CANDIDATES.find? (fun c => (cols.map pyStrip).contains c)).isSome = true := by
      rw [List.find?_isSome]
      exact ⟨c, hc, List.elem_iff.mpr hmem⟩
    obtain ⟨c0, hc0⟩ := Option.isSome_iff_exists.mp hsome
    rw [hc0]
    exact ⟨c0, rfl⟩

/-- Concrete run of C8: a frame with only a lowercase `imei` column succeeds
and a roster with an `IMEI_status  ` column (trailing spaces) is accepted. -/
theorem C8_structural_error_handling_witness :
    (∃ out, compute_connectivity 0
        { nrows := 1, imei := some ["1"], can_timestamp := some [none] } = .ok out) ∧
    (∃ c, find_master_imei ["unidad", "IMEI_status  "] = .ok c) :=
  ⟨(C8_structural_error_handling 0
      { nrows := 1, imei := some ["1"], can_timestamp := some [none] } []).2.1
      (Or.inr (by decide)),
   (C8_structural_error_handling 0 { nrows := 0 } ["unidad", "IMEI_status  "]).2.2.2
      ⟨"IMEI_status", by decide, by decide⟩⟩

/-- C10: on success the enricher keeps the row count, the unrecognized
columns, and `last_update_utc` unchanged (in the model re-parsing a parsed
column is the identity); it renames `imei`/`vin`/`patente` to their canonical
spellings exactly when the canonical column is absent, leaving both spellings
untouched otherwise; it keeps a present source timestamp column as is and
creates an absent one as all-missing; it overwrites the four derived columns
with element-wise (order-preserving) functions of the source columns; and it
preserves well-formedness, so every column still has exactly `nrows` cells. -/
theorem C10_frame (today : Int) (df out : DF)
    (hok : compute_connectivity today df = .ok out) :
    out.nrows = df.nrows ∧
    out.other = df.other ∧
    out.last_update_utc = df.last_update_utc ∧
    out.IMEI = (if df.IMEI.isNone then df.imei else df.IMEI) ∧
    out.imei = (if df.IMEI.isNone then none else df.imei) ∧
    out.VIN = (if df.VIN.isNone then df.vin else df.VIN) ∧
    out.vin = (if df.VIN.isNone then none else df.vin) ∧
    out.license_plate = (if df.license_plate.isNone then df.patente
                         else df.license_plate) ∧
    out.patente = (if df.license_plate.isNone then none else df.patente) ∧
    (df.can_timestamp.isSome = true → out.can_timestamp = df.can_timestamp) ∧
    (df.can_timestamp = none →
      out.can_timestamp = some (List.replicate df.nrows none)) ∧
    (df.gps_timestamp.isSome = true → out.gps_timestamp = df.gps_timestamp) ∧
    (df.gps_timestamp = none →
      out.gps_timestamp = some (List.replicate df.nrows none)) ∧
    out.days_can = some (mkDays today
      (df.can_timestamp.getD (List.replicate df.nrows none))) ∧
    out.estado_telemetria = some (clasificarCol
      (df.can_timestamp.getD (List.replicate df.nrows none))
      (mkDays today (df.can_timestamp.getD (List.replicate df.nrows none)))) ∧
    out.days_gps = some (mkDays today
      (df.gps_timestamp.getD (List.replicate df.nrows none))) ∧
    out.gps_status_any = some (clasificarCol
      (df.gps_timestamp.getD (List.replicate df.nrows none))
      (mkDays today (df.gps_timestamp.getD (List.replicate df.nrows none)))) ∧
    (DF.WF df → DF.WF out) := by
  have hne : ¬ ((if df.IMEI.isNone then df.imei else df.IMEI).isNone = true) := by
    intro hcon
    have hok2 := hok
    simp only [compute_connectivity, normalize_proj] at hok2
    rw [if_pos hcon] at hok2
    exact Except.noConfusion hok2
  simp only [compute_connectivity, normalize_proj] at hok
  rw [if_neg hne] at hok
  injection hok with h
  subst h
  refine ⟨rfl, rfl, rfl, rfl, rfl, rfl, rfl, rfl, rfl,
    ?_, ?_, ?_, ?_, rfl, rfl, rfl, rfl, ?_⟩
  · intro hs
    obtain ⟨l, hl⟩ := Option.isSome_iff_exists.mp hs
    simp [hl]
  · intro hn
    simp [hn]
  · intro hs
    obtain ⟨l, hl⟩ := Option.isSome_iff_exists.mp hs
    simp [hl]
  · intro hn
    simp [hn]
  · intro hwf
    obtain ⟨w1, w2, w3, w4, w5, w6, w7, w8, w9, w10, w11, w12, w13, w14⟩ := hwf
    have hcanlen : (df.can_timestamp.getD (List.replicate df.nrows none)).length
        = df.nrows := by
      rcases hc : df.can_timestamp with _ | lc
      · simp
      · simpa using w7 lc hc
    have hgpslen : (df.gps_timestamp.getD (List.replicate df.nrows none)).length
        = df.nrows := by
      rcases hc : df.gps_timestamp with _ | lc
      · simp
      · simpa using w8 lc hc
    refine ⟨?_, ?_, ?_, ?_, ?_, ?_, ?_, ?_, ?_, ?_, ?_, ?_, ?_, ?_⟩
    · intro l hl
      dsimp only at hl
      split at hl
      · cases hl
      · exact w1 l hl
    · intro l hl
      dsimp only at hl
      split at hl
      · cases hl
      · exact w2 l hl
    · intro l hl
      dsimp only at hl
      split at hl
      · cases hl
      · exact w3 l hl
    · intro l hl
      dsimp only at hl
      split at hl
      · exact w1 l hl
      · exact w4 l hl
    · intro l hl
      dsimp only at hl
      split at hl
      · exact w2 l hl
      · exact w5 l hl
    · intro l hl
      dsimp only at hl
      split at hl
      · exact w3 l hl
      · exact w6 l hl
    · intro l hl
      dsimp only at hl
      obtain rfl := Option.some.inj hl
      exact hcanlen
    · intro l hl
      dsimp only at hl
      obtain rfl := Option.some.inj hl
      exact hgpslen
    · intro l hl
      dsimp only at hl
      exact w9 l hl
    · intro l hl
      dsimp only at hl
      obtain rfl := Option.some.inj hl
      simpa [mkDays] using hcanlen
    · intro l hl
      dsimp only at hl
      obtain rfl := Option.some.inj hl
      simpa [mkDays] using hgpslen
    · intro l hl
      dsimp only at hl
      obtain rfl := Option.some.inj hl
      simp [clasificarCol, List.length_zipWith, mkDays, List.length_map, hcanlen]
    · intro l hl
      dsimp only at hl
      obtain rfl := Option.some.inj hl
      simp [clasificarCol, List.length_zipWith, mkDays, List.length_map, hgpslen]
    · intro p hp
      dsimp only at hp
      exact w14 p hp

/-- Concrete run of C10 on a one-row frame with an extra untouched column. -/
theorem C10_frame_witness :
    ({ nrows := 1, IMEI := some ["1"], can_timestamp := some [none],
       days_can := some [none],
       estado_telemetria := some [some Cat.desconectado],
       gps_timestamp := some [none], days_gps := some [none],
       gps_status_any := some [some Cat.desconectado],
       other := [("extra", ["e"])] } : DF).nrows =
      ({ nrows := 1, IMEI := some ["1"],
         other := [("extra", ["e"])] } : DF).nrows ∧
    ({ nrows := 1, IMEI := some ["1"], can_timestamp := some [none],
       days_can := some [none],
       estado_telemetria := some [some Cat.desconectado],
       gps_timestamp := some [none], days_gps := some [none],
       gps_status_any := some [some Cat.desconectado],
       other := [("extra", ["e"])] } : DF).other =
      ({ nrows := 1, IMEI := some ["1"],
         other := [("extra", ["e"])] } : DF).other :=
  ⟨(C10_frame 7 { nrows := 1, IMEI := some ["1"], other := [("extra", ["e"])] }
      { nrows := 1, IMEI := some ["1"], can_timestamp := some [none],
        days_can := some [none],
        estado_telemetria := some [some Cat.desconectado],
        gps_timestamp := some [none], days_gps := some [none],
        gps_status_any := some [some Cat.desconectado],
        other := [("extra", ["e"])] } (by rfl)).1,
   (C10_frame 7 { nrows := 1, IMEI := some ["1"], other := [("extra", ["e"])] }
      { nrows := 1, IMEI := some ["1"], can_timestamp := some [none],
        days_can := some [none],
        estado_telemetria := some [some Cat.desconectado],
        gps_timestamp := some [none], days_gps := some [none],
        gps_status_any := some [some Cat.desconectado],
        other := [("extra", ["e"])] } (by rfl)).2.1⟩

/-- Concrete run of C3: a three-row enriched table, one row per signal shape. -/
theorem C3_histogram_witness :
    (tele_counts [enrichRow 100 "A" none none (some 98) none,
                  enrichRow 100 "B" none none none (some 90),
                  enrichRow 100 "C" none none (some 60) (some 99)]).map Prod.fst = ORDER4 ∧
    (gps_counts [enrichRow 100 "A" none none (some 98) none,
                 enrichRow 100 "B" none none none (some 90),
                 enrichRow 100 "C" none none (some 60) (some 99)]).map Prod.fst = ORDER4 ∧
    ((tele_counts [enrichRow 100 "A" none none (some 98) none,
                   enrichRow 100 "B" none none none (some 90),
                   enrichRow 100 "C" none none (some 60) (some 99)]).map Prod.snd).sum =
      total [enrichRow 100 "A" none none (some 98) none,
             enrichRow 100 "B" none none none (some 90),
             enrichRow 100 "C" none none (some 60) (some 99)] ∧
    ((gps_counts [enrichRow 100 "A" none none (some 98) none,
                  enrichRow 100 "B" none none none (some 90),
                  enrichRow 100 "C" none none (some 60) (some 99)]).map Prod.snd).sum =
      total [enrichRow 100 "A" none none (some 98) none,
             enrichRow 100 "B" none none none (some 90),
             enrichRow 100 "C" none none (some 60) (some 99)] :=
  C3_histogram 100
    [enrichRow 100 "A" none none (some 98) none,
     enrichRow 100 "B" none none none (some 90),
     enrichRow 100 "C" none none (some 60) (some 99)]
    (by decide)

end Sotraser
